import Mathlib

/-!
Shallow embedding of the product-dashboard core in `src/src/App.jsx`:
the product store reducer (`productReducer`), the virtualized list window
computation (`VirtualProductList`), the analytics aggregator
(`AnalyticsDashboard`), the notification queue (`NotificationProvider`),
and the cancellable simulated data load (`ProductProvider`).

JavaScript numbers that the code only ever uses as non-negative integers
(identifiers, prices, stock, sales, pixel offsets) are embedded as `Nat`;
ratings, which carry one decimal digit, are embedded as `ℚ`.  `Date.now()`
is a read of the ambient clock, so every operation that calls it takes the
clock sample as an explicit argument.
-/

/-- A product record, as produced by the mock generator and manipulated by
the reducer (App.jsx lines 147-156). -/
structure Product where
  id : Nat
  name : String
  category : String
  price : Nat
  stock : Nat
  status : String
  sales : Nat
  rating : ℚ
deriving DecidableEq, Repr

/-- The store state held by `ProductProvider`'s reducer
(App.jsx lines 134-140). -/
structure ProductState where
  products : List Product
  loading : Bool
  filter : String
  searchTerm : String
  error : Option String
deriving DecidableEq, Repr

/-- The reducer's action set (App.jsx lines 100-130); `other` stands for any
unrecognised action, which hits the `default` branch. -/
inductive StoreAction where
  | setProducts (payload : List Product)
  | setLoading (payload : Bool)
  | setFilter (payload : String)
  | setSearch (payload : String)
  | addProduct (payload : Product)
  | updateProduct (payload : Product)
  | deleteProduct (payload : Nat)
  | setError (payload : Option String)
  | other
deriving DecidableEq

/-- Whether an action is `ADD_PRODUCT` (the one case that reads the clock). -/
def StoreAction.isAdd : StoreAction → Bool
  | .addProduct _ => true
  | _ => false

/-- The product store reducer (App.jsx lines 99-131).  `ADD_PRODUCT` reads
`Date.now()` for the new identifier, so the clock sample is the explicit
first argument `now`. -/
def productReducer (now : Nat) (state : ProductState) (action : StoreAction) :
    ProductState :=
  match action with
  | .setProducts payload => { state with products := payload, loading := false }
  | .setLoading payload => { state with loading := payload }
  | .setFilter payload => { state with filter := payload }
  | .setSearch payload => { state with searchTerm := payload }
  | .addProduct payload =>
      { state with products := state.products ++ [{ payload with id := now }] }
  | .updateProduct payload =>
      { state with
          products :=
            state.products.map fun p => if p.id = payload.id then payload else p }
  | .deleteProduct payload =>
      { state with products := state.products.filter fun p => p.id ≠ payload }
  | .setError payload => { state with error := payload, loading := false }
  | .other => state

/-- The initial store state (App.jsx lines 134-140). -/
def initialState : ProductState :=
  { products := [], loading := true, filter := "all", searchTerm := "", error := none }

/-- The simulated data load (App.jsx lines 162-176): dispatch
`SET_LOADING true`, wait for the delay, then commit the fetched collection
with `SET_PRODUCTS` only if the abort token is still clear. -/
def fetchProducts (aborted : Bool) (now : Nat) (mock : List Product)
    (s : ProductState) : ProductState :=
  let s1 := productReducer now s (.setLoading true)
  if aborted then s1 else productReducer now s1 (.setProducts mock)

/-- The fixed per-row height `itemHeight` (App.jsx line 350). -/
def itemHeight : Nat := 100

/-- `start` in `handleScroll`: `Math.floor(scrollTop / itemHeight)`
(App.jsx line 351). -/
def visibleStart (scrollTop : Nat) : Nat := scrollTop / itemHeight

/-- `end` in `handleScroll`:
`Math.min(start + Math.ceil(clientHeight / itemHeight) + 5, products.length)`
(App.jsx line 352); on naturals `Math.ceil (c / h)` is `(c + h - 1) / h`. -/
def visibleEnd (scrollTop clientHeight n : Nat) : Nat :=
  min (visibleStart scrollTop + (clientHeight + (itemHeight - 1)) / itemHeight + 5) n

/-- `products.slice(start, end)` (App.jsx line 366). -/
def visibleProducts (products : List Product) (scrollTop clientHeight : Nat) :
    List Product :=
  (products.drop (visibleStart scrollTop)).take
    (visibleEnd scrollTop clientHeight products.length - visibleStart scrollTop)

/-- Top spacer height, plus height of the materialised rows, plus bottom
spacer height (App.jsx lines 374-378). -/
def totalRenderedHeight (products : List Product) (scrollTop clientHeight : Nat) :
    Nat :=
  visibleStart scrollTop * itemHeight
    + (visibleProducts products scrollTop clientHeight).length * itemHeight
    + (products.length - visibleEnd scrollTop clientHeight products.length)
        * itemHeight

/-- The summary statistics computed by `AnalyticsDashboard`
(App.jsx lines 275-286). -/
structure Analytics where
  totalProducts : Nat
  totalSales : Nat
  averageRating : ℚ
  outOfStock : Nat
deriving DecidableEq, Repr

/-- `toFixed(1)`: rounding to one decimal place. -/
def roundTo1 (x : ℚ) : ℚ := ((round (x * 10) : ℤ) : ℚ) / 10

/-- The analytics aggregator (App.jsx lines 275-286): `null` on the empty
collection, otherwise the count, the summed sales, the mean rating rounded
to one decimal, and the number of items with stock 0. -/
def analyticsOf (products : List Product) : Option Analytics :=
  if products.length = 0 then none
  else
    some
      { totalProducts := products.length
        totalSales := products.foldl (fun sum p => sum + p.sales) 0
        averageRating :=
          roundTo1
            ((products.foldl (fun sum p => sum + p.rating) 0) /
              (products.length : ℚ))
        outOfStock := (products.filter fun p => p.stock = 0).length }

/-- A queued notification message (App.jsx lines 190-192). -/
structure Notification where
  id : Nat
  message : String
deriving DecidableEq, Repr

/-- The notification queue plus the pending `setTimeout` expiries, each a
pair (fire time, identifier to remove). -/
structure NotificationState where
  queue : List Notification
  timers : List (Nat × Nat)
deriving DecidableEq, Repr

/-- The auto-dismiss delay: 5 time units (5000 ms, App.jsx line 196). -/
def notificationDelay : Nat := 5

/-- `addNotification` (App.jsx lines 190-197): the identifier is
`Date.now()` (the explicit clock sample `now`); the message is appended and
a removal timer is scheduled `notificationDelay` units later. -/
def addNotification (now : Nat) (message : String) (s : NotificationState) :
    NotificationState :=
  { queue := s.queue ++ [{ id := now, message := message }]
    timers := s.timers ++ [(now + notificationDelay, now)] }

/-- `removeNotification` (App.jsx lines 199-201): drop every queued message
whose identifier matches. -/
def removeNotification (id : Nat) (s : NotificationState) : NotificationState :=
  { s with queue := s.queue.filter fun n => n.id ≠ id }

/-- The `setTimeout` callback firing (App.jsx lines 194-196): it removes
every queued message whose identifier matches the scheduled one, and the
timer itself is consumed. -/
def fireNotificationTimer (t : Nat × Nat) (s : NotificationState) :
    NotificationState :=
  { queue := s.queue.filter fun n => n.id ≠ t.2
    timers := s.timers.erase t }

/-! Concrete sample data used by counterexamples and witnesses. -/

/-- Sample product matching the spec's worked example (sales 10, rating 4.0,
out of stock). -/
def p1 : Product :=
  { id := 1, name := "Product 1", category := "Books", price := 10, stock := 0,
    status := "out-of-stock", sales := 10, rating := 4 }

/-- Sample product (sales 20, rating 5.0). -/
def p2 : Product :=
  { id := 2, name := "Product 2", category := "Home", price := 20, stock := 7,
    status := "active", sales := 20, rating := 5 }

/-- Sample product (sales 30, rating 3.0). -/
def p3 : Product :=
  { id := 3, name := "Product 3", category := "Sports", price := 30, stock := 3,
    status := "active", sales := 30, rating := 3 }

/-- A sample store state holding `p1` and `p2`. -/
def sEx : ProductState := { initialState with products := [p1, p2] }

/-- An empty notification state. -/
def n0 : NotificationState := { queue := [], timers := [] }

/-- A notification state with one queued message of identifier 1. -/
def nEx : NotificationState :=
  { queue := [{ id := 1, message := "x" }], timers := [(6, 1)] }

/-! ## Claim C1: total rendered height of the virtualized list -/

/-- C1 fails as stated: with an empty product sequence (N = 0), scroll
offset 100 and client height 400, the total rendered height is 100, not
N * 100 = 0 — the top spacer keeps height `start * 100` even though `start`
exceeds N.  This refutes the claim's quantification over every scroll
offset. -/
theorem C1_counterexample :
    totalRenderedHeight [] 100 400 ≠ ([] : List Product).length * 100 := by
  decide

/-- C1 (amended): whenever `floor(scrollOffset / 100) ≤ N` — which the
browser's scroll clamping guarantees for a content height of N * 100 — the
top spacer plus the materialised rows plus the bottom spacer total exactly
N * 100. -/
theorem C1_totalHeight (products : List Product) (scrollTop clientHeight : Nat)
    (h : visibleStart scrollTop ≤ products.length) :
    totalRenderedHeight products scrollTop clientHeight =
      products.length * 100 := by
  unfold totalRenderedHeight visibleProducts
  rw [List.length_take, List.length_drop]
  unfold visibleEnd visibleStart itemHeight at *
  omega

/-- Witness for C1's amended theorem at a nonempty concrete input. -/
theorem C1_totalHeight_witness :
    visibleStart 50 ≤ [p1, p2].length ∧
      totalRenderedHeight [p1, p2] 50 400 = [p1, p2].length * 100 :=
  ⟨by decide, C1_totalHeight [p1, p2] 50 400 (by decide)⟩

/-! ## Claim C4: the visible-window start index under scroll clamping -/

/-- C4: for a scroll offset within the scrollable content (at most N * 100,
as the browser's implicit clamping guarantees), the start index
`floor(scrollOffset / 100)` does not exceed N; and unconditionally the end
index never exceeds N, so the bottom spacer height (N - end) * 100 is
non-negative and the rendered slice is well-defined. -/
theorem C4_startClamped (products : List Product) (scrollTop clientHeight : Nat)
    (h : scrollTop ≤ products.length * 100) :
    visibleStart scrollTop ≤ products.length
    ∧ visibleEnd scrollTop clientHeight products.length ≤ products.length
    ∧ (0 : ℤ) ≤
        ((products.length : ℤ) -
            (visibleEnd scrollTop clientHeight products.length : ℤ)) * 100 := by
  unfold visibleEnd visibleStart itemHeight
  refine ⟨by omega, by omega, ?_⟩
  have hle : min (scrollTop / 100 + (clientHeight + 99) / 100 + 5)
      products.length ≤ products.length := min_le_right _ _
  have : ((min (scrollTop / 100 + (clientHeight + 99) / 100 + 5)
      products.length : Nat) : ℤ) ≤ (products.length : ℤ) := by
    exact_mod_cast hle
  nlinarith

/-- Witness for C4 at a concrete input. -/
theorem C4_startClamped_witness :
    (50 : Nat) ≤ [p1, p2].length * 100 ∧
      (visibleStart 50 ≤ [p1, p2].length
        ∧ visibleEnd 50 400 [p1, p2].length ≤ [p1, p2].length
        ∧ (0 : ℤ) ≤
            (([p1, p2].length : ℤ) - (visibleEnd 50 400 [p1, p2].length : ℤ))
              * 100) :=
  ⟨by decide, C4_startClamped [p1, p2] 50 400 (by decide)⟩

/-! ## Claim C9: cancelled load commits nothing -/

/-- C9: if the abort token is set before the simulated load's delay
elapses, the completion is suppressed — no SET_PRODUCTS is dispatched, the
product collection stays as it was (empty from the initial state), and the
loading flag remains true. -/
theorem C9_cancelledLoad (now : Nat) (mock : List Product) :
    (fetchProducts true now mock initialState).products = []
    ∧ (fetchProducts true now mock initialState).loading = true :=
  ⟨rfl, rfl⟩

/-! ## Claim C10: SET_PRODUCTS frame effect -/

/-- C10: SET_PRODUCTS replaces the products field with the payload and also
sets loading to false in the same transition, leaving error, filter and
searchTerm untouched. -/
theorem C10_setProductsFrame (now : Nat) (s : ProductState)
    (payload : List Product) :
    (productReducer now s (.setProducts payload)).products = payload
    ∧ (productReducer now s (.setProducts payload)).loading = false
    ∧ (productReducer now s (.setProducts payload)).error = s.error
    ∧ (productReducer now s (.setProducts payload)).filter = s.filter
    ∧ (productReducer now s (.setProducts payload)).searchTerm = s.searchTerm :=
  ⟨rfl, rfl, rfl, rfl, rfl⟩

/-! ## Claim C2: add appends one entry with a fresh identifier -/

/-- C2 fails as stated: ADD_PRODUCT assigns `Date.now()` as the identifier,
and nothing prevents that clock sample from colliding with an identifier
already in the collection.  With `p1` (identifier 1) already stored and a
clock sample of 1, the appended entry's identifier 1 occurs among the prior
identifiers. -/
theorem C2_counterexample :
    p1.id = 1
    ∧ (productReducer 1 { initialState with products := [p1] }
        (.addProduct p2)).products.map Product.id = [1, 1] := by
  decide

/-- C2 (amended): ADD_PRODUCT appends exactly one entry (length grows by
one, every prior entry unchanged and in place), the appended entry is the
payload with its identifier overwritten by the clock sample, and that
identifier is absent from the prior collection provided the clock sample
differs from every prior identifier. -/
theorem C2_addProduct (now : Nat) (s : ProductState) (p : Product)
    (hfresh : ∀ q ∈ s.products, q.id ≠ now) :
    (productReducer now s (.addProduct p)).products.length =
        s.products.length + 1
    ∧ (∀ i, i < s.products.length →
        (productReducer now s (.addProduct p)).products[i]? = s.products[i]?)
    ∧ (productReducer now s (.addProduct p)).products[s.products.length]? =
        some { p with id := now }
    ∧ ∀ q ∈ s.products, q.id ≠ ({ p with id := now } : Product).id := by
  refine ⟨by simp [productReducer], ?_, ?_, ?_⟩
  · intro i hi
    simp [productReducer, List.getElem?_append, hi]
  · simp [productReducer]
  · intro q hq
    exact hfresh q hq

/-- Witness for C2's amended theorem: adding at clock sample 99 to a store
holding `p1`. -/
theorem C2_addProduct_witness :
    (∀ q ∈ ({ initialState with products := [p1] } : ProductState).products,
        q.id ≠ 99)
    ∧ ((productReducer 99 { initialState with products := [p1] }
          (.addProduct p2)).products.length =
        ({ initialState with products := [p1] } : ProductState).products.length
          + 1) :=
  ⟨by decide,
    (C2_addProduct 99 { initialState with products := [p1] } p2 (by decide)).1⟩

/-! ## Claim C3: determinism of the reducer -/

/-- C3 fails as stated: ADD_PRODUCT samples `Date.now()`, so two
evaluations of the reducer on the same (state, action) pair at different
clock instants yield different states. -/
theorem C3_counterexample :
    productReducer 0 initialState (.addProduct p1) ≠
      productReducer 1 initialState (.addProduct p1) := by
  decide

/-- C3 (amended): the reducer is a total deterministic function of
(state, action, clock sample); for every action other than ADD_PRODUCT the
result does not depend on the clock, so determinism over (state, action)
alone holds for all actions except add. -/
theorem C3_deterministic (t1 t2 : Nat) (s : ProductState) (a : StoreAction)
    (h : a.isAdd = false) :
    productReducer t1 s a = productReducer t2 s a := by
  cases a <;> first
    | rfl
    | exact absurd h (by simp [StoreAction.isAdd])

/-- Witness for C3's amended theorem on SET_LOADING. -/
theorem C3_deterministic_witness :
    (StoreAction.setLoading true).isAdd = false
    ∧ productReducer 0 initialState (.setLoading true) =
        productReducer 1 initialState (.setLoading true) :=
  ⟨by decide, C3_deterministic 0 1 initialState (.setLoading true) (by decide)⟩

/-! ## Claim C5: update replaces the matching entry -/

/-- Mapping the update substitution over a list with no matching identifier
leaves the list unchanged. -/
theorem map_update_of_no_match (l : List Product) (p : Product)
    (h : ∀ q ∈ l, q.id ≠ p.id) :
    (l.map fun q => if q.id = p.id then p else q) = l := by
  induction l with
  | nil => rfl
  | cons a t ih =>
    have ha : a.id ≠ p.id := h a (List.mem_cons_self a t)
    simp only [List.map_cons, if_neg ha, List.cons.injEq, true_and]
    exact ih fun q hq => h q (List.mem_cons_of_mem a hq)

/-- C5: UPDATE_PRODUCT preserves the collection's length; pointwise, the
entry at each position is replaced by the payload exactly when its
identifier matches the payload's and is unchanged otherwise; and when no
entry matches, the collection is unchanged (no-op). -/
theorem C5_updateProduct (now : Nat) (s : ProductState) (p : Product) :
    (productReducer now s (.updateProduct p)).products.length =
        s.products.length
    ∧ (∀ i : Nat, (productReducer now s (.updateProduct p)).products[i]? =
        (s.products[i]?).map fun q => if q.id = p.id then p else q)
    ∧ ((∀ q ∈ s.products, q.id ≠ p.id) →
        (productReducer now s (.updateProduct p)).products = s.products) := by
  refine ⟨by simp [productReducer], ?_, ?_⟩
  · intro i
    simp [productReducer, List.getElem?_map]
  · intro h
    simp only [productReducer]
    exact map_update_of_no_match s.products p h

/-- Witness for C5: updating identifier 1 in a store holding `p1` and `p2`
replaces exactly the first entry; updating an absent identifier 99 is a
no-op. -/
theorem C5_updateProduct_witness :
    (productReducer 0 sEx (.updateProduct { p3 with id := 1 })).products[0]? =
        some { p3 with id := 1 }
    ∧ (productReducer 0 sEx
        (.updateProduct { p3 with id := 99 })).products = sEx.products := by
  constructor
  · have h := (C5_updateProduct 0 sEx { p3 with id := 1 }).2.1 0
    rw [h]; decide
  · exact (C5_updateProduct 0 sEx { p3 with id := 99 }).2.2 (by decide)

/-! ## Claim C6: delete removes the matching entry -/

/-- C6: after DELETE_PRODUCT of an identifier, no remaining entry carries
that identifier (a lookup is absent); the surviving entries are a sublist
of the original collection (unchanged, in their original relative order);
every entry with a different identifier survives; and when no entry had
that identifier the collection is unchanged (no-op). -/
theorem C6_deleteProduct (now : Nat) (s : ProductState) (id : Nat) :
    (∀ q ∈ (productReducer now s (.deleteProduct id)).products, q.id ≠ id)
    ∧ (productReducer now s (.deleteProduct id)).products.Sublist s.products
    ∧ (∀ q ∈ s.products, q.id ≠ id →
        q ∈ (productReducer now s (.deleteProduct id)).products)
    ∧ ((∀ q ∈ s.products, q.id ≠ id) →
        (productReducer now s (.deleteProduct id)).products = s.products) := by
  refine ⟨?_, ?_, ?_, ?_⟩
  · intro q hq
    simp only [productReducer] at hq
    have := (List.mem_filter.mp hq).2
    simpa using this
  · simpa only [productReducer] using List.filter_sublist s.products
  · intro q hq hne
    simp only [productReducer]
    exact List.mem_filter.mpr ⟨hq, by simpa using hne⟩
  · intro h
    simp only [productReducer]
    refine List.filter_eq_self.mpr ?_
    intro q hq
    simpa using h q hq

/-- Witness for C6: deleting identifier 1 from a store holding `p1` and
`p2` keeps `p2`; deleting an absent identifier 99 is a no-op. -/
theorem C6_deleteProduct_witness :
    p2 ∈ (productReducer 0 sEx (.deleteProduct 1)).products
    ∧ (productReducer 0 sEx (.deleteProduct 99)).products = sEx.products :=
  ⟨(C6_deleteProduct 0 sEx 1).2.2.1 p2 (by decide) (by decide),
    (C6_deleteProduct 0 sEx 99).2.2.2 (by decide)⟩

/-! ## Claim C7: the analytics aggregator -/

/-- C7: the analytics aggregator is a pure function of the collection; on
the empty collection it returns the defined "no data" result (`none`),
guarding the mean computation so no division by zero occurs; and on the
spec's worked example — three products with sales 10, 20, 30 and ratings
4.0, 5.0, 3.0 — it returns count 3, total sales 60, average rating 4.0 and
out-of-stock count 1 (only `p1` has stock 0). -/
theorem C7_analytics :
    analyticsOf [] = none
    ∧ (analyticsOf [p1, p2, p3]).map Analytics.totalProducts = some 3
    ∧ (analyticsOf [p1, p2, p3]).map Analytics.totalSales = some 60
    ∧ (analyticsOf [p1, p2, p3]).map Analytics.averageRating = some 4
    ∧ (analyticsOf [p1, p2, p3]).map Analytics.outOfStock = some 1 := by
  refine ⟨rfl, rfl, rfl, ?_, rfl⟩
  show some (roundTo1 ((0 + p1.rating + p2.rating + p3.rating) / 3)) = some 4
  norm_num [p1, p2, p3, roundTo1]

/-! ## Claim C8: the notification queue -/

/-- C8 fails as stated: the enqueued identifier is `Date.now()`, so a
second message enqueued at the same clock instant receives an identifier
already present in the queue.  Enqueuing twice at instant 7 yields the
identifier list [7, 7], with 7 already queued before the second enqueue. -/
theorem C8_counterexample :
    (addNotification 7 "b" (addNotification 7 "a" n0)).queue.map
        Notification.id = [7, 7]
    ∧ 7 ∈ (addNotification 7 "a" n0).queue.map Notification.id := by
  decide

/-- C8 (amended): enqueuing appends the message to the tail of the queue
(insertion order preserved) with the clock sample as identifier, which is
distinct from all queued identifiers provided no queued message was
enqueued at the same clock instant; a removal timer for that identifier is
scheduled `notificationDelay` (5) units later, and its firing removes every
message carrying the identifier; explicit removal and timer firing both
keep the surviving messages in their original relative order. -/
theorem C8_notificationQueue (now : Nat) (msg : String)
    (s : NotificationState) (id ft : Nat)
    (hfresh : ∀ n ∈ s.queue, n.id ≠ now) :
    (addNotification now msg s).queue =
        s.queue ++ [{ id := now, message := msg }]
    ∧ (∀ n ∈ s.queue, n.id ≠ ({ id := now, message := msg } : Notification).id)
    ∧ (now + notificationDelay, now) ∈ (addNotification now msg s).timers
    ∧ (∀ n ∈ (fireNotificationTimer (ft, id) s).queue, n.id ≠ id)
    ∧ (removeNotification id s).queue.Sublist s.queue
    ∧ (fireNotificationTimer (ft, id) s).queue.Sublist s.queue := by
  refine ⟨rfl, hfresh, ?_, ?_, ?_, ?_⟩
  · simp [addNotification]
  · intro n hn
    have := (List.mem_filter.mp hn).2
    simpa using this
  · exact List.filter_sublist s.queue
  · exact List.filter_sublist s.queue

/-- Witness for C8's amended theorem: enqueuing at instant 3 into a queue
holding one message with identifier 1. -/
theorem C8_notificationQueue_witness :
    (∀ n ∈ nEx.queue, n.id ≠ 3)
    ∧ (addNotification 3 "a" nEx).queue =
        nEx.queue ++ [{ id := 3, message := "a" }]
    ∧ (3 + notificationDelay, 3) ∈ (addNotification 3 "a" nEx).timers :=
  ⟨by decide, (C8_notificationQueue 3 "a" nEx 1 6 (by decide)).1,
    (C8_notificationQueue 3 "a" nEx 1 6 (by decide)).2.2.1⟩
